import Mathlib

/-!
Shallow embedding of the charaqtique-proxy backend (server.js, revision
`part_004`).

This file models the Express request handlers of the repository's server as pure
Lean functions and proves properties about them.  JavaScript runtime values that
cross a dynamic boundary (request-body fields, Replicate provider outputs) are
modelled by the inductive type `JSValue`; JavaScript truthiness, the `||`
operator, `String(x)` coercion and `JSON.stringify` are modelled explicitly.
External calls (Replicate models, Supabase storage) are parameters ("oracles")
of the handler functions, so that a handler is a pure function of its request
and of the outcomes of its outbound calls.  Machine floats `0.1` / `0.2`
(img2img strength constants) are modelled as rationals.
-/

namespace CharaqtiqueProxy

/-- A JavaScript runtime value, as far as the server's handlers inspect one:
`null`, `undefined`, booleans, (integer) numbers, strings, arrays, objects. -/
inductive JSValue where
  | vNull : JSValue
  | vUndefined : JSValue
  | vBool (b : Bool) : JSValue
  | vNum (n : Int) : JSValue
  | vStr (s : String) : JSValue
  | vArr (xs : List JSValue) : JSValue
  | vObj (fields : List (String × JSValue)) : JSValue

/-- JavaScript truthiness: `null`, `undefined`, `false`, `0` and `""` are falsy;
every array and object is truthy.  (NaN does not arise in the model.) -/
def jsTruthy : JSValue → Bool
  | .vNull => false
  | .vUndefined => false
  | .vBool b => b
  | .vNum n => n != 0
  | .vStr s => s != ""
  | .vArr _ => true
  | .vObj _ => true

/-- The JavaScript `a || b` operator on values. -/
def jsOr (a b : JSValue) : JSValue := if jsTruthy a then a else b

/-- JavaScript loose `item != null`, true exactly off `null` and `undefined`. -/
def jsNotNullish : JSValue → Bool
  | .vNull => false
  | .vUndefined => false
  | _ => true

/-- Property read `obj.k` on an object literal: `undefined` when absent. -/
def objGet (fields : List (String × JSValue)) (k : String) : JSValue :=
  match fields.find? (fun p => p.1 == k) with
  | some p => p.2
  | none => .vUndefined

/-! ## String helpers (kernel-reducible stand-ins for JS string methods) -/

/-- ASCII whitespace test; stands in for the JS `\s` / `trim` whitespace class
(the server only ever handles ASCII whitespace here). -/
def isWS (c : Char) : Bool := c == ' ' || c == '\t' || c == '\n' || c == '\r'

/-- JS `String.prototype.trim` (restricted to ASCII whitespace). -/
def trimStr (s : String) : String :=
  String.mk (((s.data.dropWhile isWS).reverse.dropWhile isWS).reverse)

/-- JS `String.prototype.toLowerCase` (characterwise). -/
def toLowerStr (s : String) : String := String.mk (s.data.map Char.toLower)

/-- JS `s.startsWith(pre)`. -/
def strStartsWith (s pre : String) : Bool := pre.data.isPrefixOf s.data

/-- Helper for substring search over character lists. -/
def infixOfAux (pat : List Char) : List Char → Bool
  | [] => pat.isPrefixOf ([] : List Char)
  | c :: t => pat.isPrefixOf (c :: t) || infixOfAux pat t

/-- JS `s.includes(pat)`. -/
def containsSub (s pat : String) : Bool := infixOfAux pat.data s.data

/-- JS `s.substring(0, n)`. -/
def strTake (s : String) (n : Nat) : String := String.mk (s.data.take n)

/-- Concatenate a list of strings with a separator (JS `Array.prototype.join`). -/
def joinSep (sep : String) : List String → String
  | [] => ""
  | [x] => x
  | x :: y :: t => x ++ sep ++ joinSep sep (y :: t)

/-! ## JS string coercion and JSON serialization -/

mutual

/-- JS `String(x)` coercion as used by the handlers. -/
def jsStringOf : JSValue → String
  | .vNull => "null"
  | .vUndefined => "undefined"
  | .vBool true => "true"
  | .vBool false => "false"
  | .vNum n => toString n
  | .vStr s => s
  | .vArr xs => joinSep "," (jsStringOfArrElems xs)
  | .vObj _ => "[object Object]"

/-- Array elements under `String`: `null`/`undefined` become empty. -/
def jsStringOfArrElems : List JSValue → List String
  | [] => []
  | .vNull :: t => "" :: jsStringOfArrElems t
  | .vUndefined :: t => "" :: jsStringOfArrElems t
  | x :: t => jsStringOf x :: jsStringOfArrElems t

end

/-- Quote a string as a JSON literal (escaping `"`, `\` and newline; other
control characters do not arise in the model). -/
def jsonQuote (s : String) : String :=
  "\"" ++ String.mk (s.data.flatMap fun c =>
    if c == '"' then ['\\', '"']
    else if c == '\\' then ['\\', '\\']
    else if c == '\n' then ['\\', 'n']
    else [c]) ++ "\""

mutual

/-- Model of `JSON.stringify` on a value; `none` models the JS result `undefined`. -/
def jsonStringify : JSValue → Option String
  | .vNull => some "null"
  | .vUndefined => none
  | .vBool true => some "true"
  | .vBool false => some "false"
  | .vNum n => some (toString n)
  | .vStr s => some (jsonQuote s)
  | .vArr xs => some ("[" ++ joinSep "," (jsonStringifyArr xs) ++ "]")
  | .vObj fs => some ("\x7b" ++ joinSep "," (jsonStringifyFields fs) ++ "\x7d")

/-- Array elements under `JSON.stringify`: `undefined` serializes as `null`. -/
def jsonStringifyArr : List JSValue → List String
  | [] => []
  | x :: t =>
    (match jsonStringify x with
     | some s => s
     | none => "null") :: jsonStringifyArr t

/-- Object fields under `JSON.stringify`: `undefined`-valued fields are omitted. -/
def jsonStringifyFields : List (String × JSValue) → List String
  | [] => []
  | (k, v) :: t =>
    match jsonStringify v with
    | some s => (jsonQuote k ++ ":" ++ s) :: jsonStringifyFields t
    | none => jsonStringifyFields t

end

/-- Model of `JSON.stringify(output)` where `output` is known to be an object (always
yields a string in JS). -/
def jsonStringifyObj (fs : List (String × JSValue)) : String :=
  match jsonStringify (.vObj fs) with
  | some s => s
  | none => "undefined"

/-! ## HTTP response model -/

/-- An HTTP response as produced by `res.status(n).json(body)` /
`res.json(body)` (the latter with status 200). -/
structure HttpResponse where
  status : Nat
  body : List (String × JSValue)

/-- Read a field of a response body. -/
def HttpResponse.field (r : HttpResponse) (k : String) : Option JSValue :=
  (r.body.find? (fun p => p.1 == k)).map (fun p => p.2)

/-! ## POST /api/chat (part_004 lines 276-414)

The provider call `replicate.run("openai/gpt-4o-mini", …)` is modelled by a
parameter `providerResult : Except String JSValue` (`.error` = the call threw).
-/

/-- An array element under `item => typeof item === 'string' ? item : String(item)`. -/
def chatElemStr (x : JSValue) : String :=
  match x with
  | .vStr s => s
  | _ => jsStringOf x

/-- The chat output-shape dispatch, part_004 lines 343-357: string used
directly; array filtered of nullish elements, elements stringified, joined
with `''` and trimmed; object run through the
`output.text || output.response || output.output || output.content ||
JSON.stringify(output)` chain; anything else through `String(output)`. -/
def chatExtract (output : JSValue) : JSValue :=
  match output with
  | .vStr s => .vStr s
  | .vArr xs =>
      .vStr (trimStr (joinSep "" ((xs.filter jsNotNullish).map chatElemStr)))
  | .vObj fs =>
      jsOr (objGet fs "text")
        (jsOr (objGet fs "response")
          (jsOr (objGet fs "output")
            (jsOr (objGet fs "content") (.vStr (jsonStringifyObj fs)))))
  | v => .vStr (jsStringOf v)

/-- The chat normalization including the unconditional
`response = response.trim()` at line 362.  When the dispatch leaves a
non-string in `response` (a truthy non-string object field), `.trim()` raises
a TypeError in JS; that is modelled by `none`. -/
def chatNormalize (output : JSValue) : Option String :=
  match chatExtract output with
  | .vStr s => some (trimStr s)
  | _ => none

/-- The first truthy value among the `text`/`response`/`output`/`content`
fields of an object, in that priority order (the semantics JS `||` gives the
field chain at line 354). -/
def firstTruthyField (fs : List (String × JSValue)) : Option JSValue :=
  [objGet fs "text", objGet fs "response", objGet fs "output",
   objGet fs "content"].find? jsTruthy

/-- The synthesized fallback sent from the outer catch block (line 405). -/
def chatErrorResponse (message : JSValue) : String :=
  "I\x27m having trouble processing that right now, but I heard you say \"" ++
    (match message with
     | .vStr s => strTake s 30
     | _ => jsStringOf message) ++
    "...\". Can you try rephrasing that?"

/-- The character-based fallback of lines 389-393 (reached when the inner try
left a response shorter than 3 characters — unreachable after line 366's
default, but modelled faithfully). -/
def chatCharacterFallback (characterPrompt message : JSValue) : String :=
  "*" ++
    (if (match characterPrompt with
         | .vStr s => containsSub s "Romantic"
         | _ => false) then "smiles warmly* " else "") ++
    jsStringOf message ++ ". That\x27s interesting. Tell me more about that."

/-- The POST /api/chat handler (part_004 lines 276-414) as a function of the
`message` and `characterPrompt` request fields and of the provider outcome.
The inner catch rethrows, so every provider error reaches the outer catch,
which sends **status 500** with a synthesized `response` field. -/
def chatHandler (message characterPrompt : JSValue)
    (providerResult : Except String JSValue) : HttpResponse :=
  if !(jsTruthy message) || !(jsTruthy characterPrompt) then
    { status := 400,
      body := [("error", .vStr "Message and characterPrompt are required")] }
  else
    match providerResult with
    | .error _ =>
        { status := 500,
          body := [("response", .vStr (chatErrorResponse message)),
                   ("error", .vStr "Failed to get chat response")] }
    | .ok output =>
        match chatNormalize output with
        | some r0 =>
            let r1 := if r0 == "" || r0.length < 3 then
                        "I\x27m here, how can I help you?" else r0
            let r2 := if r1 == "" || r1.length < 3 then
                        chatCharacterFallback characterPrompt message else r1
            { status := 200, body := [("response", .vStr r2)] }
        | none =>
            -- `.trim()` on a non-string threw; rethrown into the outer catch.
            { status := 500,
              body := [("response", .vStr (chatErrorResponse message)),
                       ("error", .vStr "Failed to get chat response")] }

/-! ## POST /api/generate-photo (part_004 lines 417-813)

Replicate calls are oracles: `runFlux` for `black-forest-labs/flux-1.1-pro`
and `runFS` for the face-swap models (keyed by model identifier).  The
`strength` float constants 0.1 / 0.2 are modelled as rationals.
-/

/-- The portrait heuristic, part_004 lines 484-489: keyword match on the
lowercased free-text description. -/
def isPortraitRequest (description : String) : Bool :=
  let descriptionLower := toLowerStr description
  containsSub descriptionLower "portrait" ||
  containsSub descriptionLower "headshot" ||
  containsSub descriptionLower "close-up" ||
  containsSub descriptionLower "closeup" ||
  containsSub descriptionLower "face only"

/-- The two mutually exclusive strategies of the photo pipeline. -/
inductive PhotoBranch where
  | A : PhotoBranch
  | B : PhotoBranch
deriving DecidableEq

/-- The five portrait keywords of the heuristic, in source order. -/
def portraitKeywords : List String :=
  ["portrait", "headshot", "close-up", "closeup", "face only"]

/-- Branch dispatch, line 527: `if (isPortraitRequest && profileImageBase64)`. -/
def selectPhotoBranch (description : String) (profileImageBase64 : JSValue) :
    PhotoBranch :=
  if isPortraitRequest description && jsTruthy profileImageBase64 then .A else .B

/-- The fixed negative prompt of line 516. -/
def negativePromptConst : String :=
  "portrait, headshot, close-up, face only, upper body only, cropped, zoomed in, face closeup, head only, bust shot, shoulder up"

/-- Input object for a `flux-1.1-pro` call. -/
structure FluxInput where
  prompt : String
  negative_prompt : Option String
  aspect_ratio : String
  output_format : String
  image : Option String
  strength : Option ℚ
deriving DecidableEq

/-- Input object for a face-swap call (lines 649-652 / 676-679). -/
structure FaceSwapInput where
  target_image : JSValue
  source_image : String

/-- The shared output-to-URL extraction (lines 576-582, 620-626, 703-709,
738-744): array takes element 0, string is used directly, object runs the
`output.url || output.image || output[0] || null` chain, and any other shape
leaves the assigned variable at its previous value. -/
def assignExtract (prev : JSValue) (output : JSValue) : JSValue :=
  match output with
  | .vArr xs => xs.headD .vUndefined
  | .vStr s => .vStr s
  | .vObj fs =>
      jsOr (objGet fs "url")
        (jsOr (objGet fs "image") (jsOr (objGet fs "0") .vNull))
  | _ => prev

/-- Scenario A's flux input (lines 531-557): the img2img `image`/`strength`
parameters are attached only when the supplied base64 string is at most
`5 * 1024 * 1024` characters long; an oversized reference is silently
skipped. -/
def scenarioAInput (photoPrompt negativePrompt profileImageBase64 : String) :
    FluxInput :=
  let base : FluxInput :=
    { prompt := photoPrompt, negative_prompt := some negativePrompt,
      aspect_ratio := "16:9", output_format := "jpg",
      image := none, strength := none }
  if profileImageBase64.length > 5 * 1024 * 1024 then base
  else
    { base with
      image := some ("data:image/jpeg;base64," ++ profileImageBase64),
      strength := some (0.2 : ℚ) }

/-- Scenario A (lines 527-593): one flux call; a provider error is surfaced
as HTTP 500, a success has its URL extracted. -/
def scenarioAStep (runFlux : FluxInput → Except String JSValue)
    (photoPrompt negativePrompt profileImageBase64 : String) :
    Except HttpResponse JSValue :=
  match runFlux (scenarioAInput photoPrompt negativePrompt profileImageBase64) with
  | .error e =>
      .error { status := 500,
               body := [("error", .vStr "Failed to generate photo"),
                        ("details", .vStr e),
                        ("model", .vStr "black-forest-labs/flux-1.1-pro")] }
  | .ok output => .ok (assignExtract .vUndefined output)

/-- The primary face-swap model (line 655). -/
def primaryFaceSwapModel : String := "easel/advanced-face-swap"

/-- The ordered fallback list of alternate face-swap models (lines 666-670). -/
def fallbackModels : List String :=
  ["lucataco/faceswap", "fofr/face-swap",
   "cdingram/face-swap:d1d6ea8c8be89d664a07a457526f7128109dee7030fdac424788d762c71ed111"]

/-- The face-swap input built identically for primary and alternates. -/
def mkFaceSwapInput (sceneImageURL : JSValue) (profileImageBase64 : String) :
    FaceSwapInput :=
  { target_image := sceneImageURL,
    source_image := "data:image/jpeg;base64," ++ profileImageBase64 }

/-- The `for (const model of fallbackModels)` loop (lines 673-695): the first
model whose call does not throw wins. -/
def tryAltModels (runFS : String → FaceSwapInput → Except String JSValue)
    (inp : FaceSwapInput) : List String → Option JSValue
  | [] => none
  | m :: rest =>
      match runFS m inp with
      | .ok out => some out
      | .error _ => tryAltModels runFS inp rest

/-- Primary attempt plus fallback loop plus the `if (!faceSwapOutput) throw`
check at line 697 (which also fires when an alternate "succeeded" with a falsy
value).  `.error ()` means control reaches the catch block at line 716. -/
def faceSwapStage (runFS : String → FaceSwapInput → Except String JSValue)
    (inp : FaceSwapInput) : Except Unit JSValue :=
  match runFS primaryFaceSwapModel inp with
  | .ok out => .ok out
  | .error _ =>
      match tryAltModels runFS inp fallbackModels with
      | some out => if jsTruthy out then .ok out else .error ()
      | none => .error ()

/-- The last-resort Img2Img input (lines 722-729): the conditioning `image` is
the **profile base64 data URL** with strength 0.1 and the scene prompt. -/
def fallbackRegenInput (scenePrompt negativePrompt profileImageBase64 : String) :
    FluxInput :=
  { prompt := scenePrompt, negative_prompt := some negativePrompt,
    image := some ("data:image/jpeg;base64," ++ profileImageBase64),
    strength := some (0.1 : ℚ),
    aspect_ratio := "16:9", output_format := "jpg" }

/-- The catch block at lines 716-752: try the low-strength Img2Img
regeneration; if that also throws, fall back to the unmodified scene URL. -/
def regenFallback (runFlux : FluxInput → Except String JSValue)
    (prevImageURL sceneImageURL : JSValue)
    (scenePrompt negativePrompt profileImageBase64 : String) : JSValue :=
  match runFlux (fallbackRegenInput scenePrompt negativePrompt profileImageBase64) with
  | .ok fout => assignExtract prevImageURL fout
  | .error _ => sceneImageURL

/-- Step 2 of Scenario B (lines 639-752): face swap with fallback chain, the
falsy-URL throw at line 714, and the regeneration/scene fallbacks.  Returns
the `imageURL` value carried into the final validation/persistence step. -/
def faceSwapSection (runFS : String → FaceSwapInput → Except String JSValue)
    (runFlux : FluxInput → Except String JSValue)
    (sceneImageURL : JSValue)
    (scenePrompt negativePrompt profileImageBase64 : String) : JSValue :=
  let inp := mkFaceSwapInput sceneImageURL profileImageBase64
  match faceSwapStage runFS inp with
  | .ok out =>
      let url := assignExtract .vUndefined out
      if jsTruthy url then url
      else regenFallback runFlux url sceneImageURL
             scenePrompt negativePrompt profileImageBase64
  | .error _ =>
      regenFallback runFlux .vUndefined sceneImageURL
        scenePrompt negativePrompt profileImageBase64

/-- The final validation + persistence step shared by both branches
(lines 760-801).  `uploadOracle url path` models `uploadUrlToSupabase`
(`none` = upload failed and the ephemeral URL is kept). -/
def finalizePhoto (imageURL : JSValue) (uuid : String) (characterId : JSValue)
    (uploadOracle : String → String → Option String) : HttpResponse :=
  if !(jsTruthy imageURL) then
    { status := 500,
      body := [("error", .vStr "Failed to generate photo - no image URL in response")] }
  else
    match imageURL with
    | .vStr url =>
        if !(strStartsWith url "http://") && !(strStartsWith url "https://") then
          { status := 500,
            body := [("error", .vStr "Failed to generate photo - invalid image URL format"),
                     ("imageURL", .vStr url)] }
        else
          let filePath := "generated/" ++ uuid ++ ".jpg"
          match uploadOracle url filePath with
          | none =>
              { status := 200,
                body := [("imageURL", .vStr url), ("characterId", characterId)] }
          | some publicUrl =>
              { status := 200,
                body := [("imageURL", .vStr publicUrl), ("characterId", characterId)] }
    | _ =>
        -- `.startsWith` on a truthy non-string throws; outer catch sends 500.
        { status := 500,
          body := [("error", .vStr "Failed to generate photo")] }

/-- The missing-`description` guard of the photo handler (lines 428-430). -/
def generatePhotoGuard (description : JSValue) : Option HttpResponse :=
  if !(jsTruthy description) then
    some { status := 400, body := [("error", .vStr "Description is required")] }
  else none

/-- The missing-`prompt` guard of POST /api/create-images (lines 222-224). -/
def createImagesGuard (prompt : JSValue) : Option HttpResponse :=
  if !(jsTruthy prompt) then
    some { status := 400, body := [("error", .vStr "Prompt is required")] }
  else none

/-! ## POST /api/save-characters and GET /api/load-characters
(part_004 lines 882-1085)

The `characters` table is modelled as a list of rows; `delete().eq(…)` is a
filter, `insert` an append, and the load query a filter plus a stable sort on
`created_at`. -/

/-- A row of the `characters` table.  URL columns are nullable text. -/
structure CharacterRow where
  user_id : String
  character_id : String
  name : String
  profile_image_url : Option String
  full_body_image_url : Option String
  created_at : String
  is_user_created : Bool
  character_traits : JSValue

/-- An incoming character object from the request body.  `none` on a URL field
models an absent / `undefined` field. -/
structure InChar where
  id : String
  name : String
  profileImageURL : Option String
  fullBodyImageURL : Option String
  createdAt : String
  isUserCreated : Bool
  characterTraits : JSValue

/-- JS `typeof v === 'object'` (true for objects, arrays and `null`). -/
def isTypeofObject : JSValue → Bool
  | .vObj _ => true
  | .vArr _ => true
  | .vNull => true
  | _ => false

/-- Model of `char.profileImageURL || null` (line 931): an absent or empty-string field
collapses to null. -/
def normOptURL : Option String → Option String
  | none => none
  | some s => if s == "" then none else some s

/-- The guard of lines 934 / 942:
`!url || url.startsWith('file://') || url === ''`. -/
def urlNeedsExisting : Option String → Bool
  | none => true
  | some s => strStartsWith s "file://" || s == ""

/-- The `existingImageURLs` map (lines 899-913): built from the rows fetched
for the user *before* the delete, keyed by `character_id`; a later row with
the same id overwrites an earlier one. -/
def existingLookup (fetched : List CharacterRow) (cid : String) :
    Option (Option String × Option String) :=
  (fetched.reverse.find? (fun r => r.character_id == cid)).map
    (fun r => (r.profile_image_url, r.full_body_image_url))

/-- Replace a missing/local URL by the previously persisted one when that one
is truthy (lines 934-948). -/
def preserveURL (incoming : Option String) (existing : Option (Option String)) :
    Option String :=
  if urlNeedsExisting incoming then
    match existing with
    | some (some e) => if e == "" then incoming else some e
    | _ => incoming
  else incoming

/-- The row built for one incoming character (lines 922-960).  Note
`is_user_created: char.isUserCreated || true` — always `true`. -/
def toRow (userId : String) (fetched : List CharacterRow) (c : InChar) :
    CharacterRow :=
  let traits := if isTypeofObject c.characterTraits then c.characterTraits
                else .vObj []
  let ex := existingLookup fetched c.id
  let profileImageURL :=
    preserveURL (normOptURL c.profileImageURL) (ex.map (fun p => p.1))
  let fullBodyImageURL :=
    preserveURL (normOptURL c.fullBodyImageURL) (ex.map (fun p => p.2))
  { user_id := userId
    character_id := c.id
    name := c.name
    profile_image_url := profileImageURL
    full_body_image_url := fullBodyImageURL
    created_at := c.createdAt
    is_user_created := (c.isUserCreated || true)
    character_traits := traits }

/-- POST /api/save-characters (lines 882-1007): fetch the user's existing
rows, delete all rows scoped to the user id, then bulk-insert the mapped
incoming set. -/
def saveCharacters (db : List CharacterRow) (userId : String)
    (characters : List InChar) : List CharacterRow :=
  let fetched := db.filter (fun r => r.user_id == userId)
  let afterDelete := db.filter (fun r => !(r.user_id == userId))
  afterDelete ++ characters.map (toRow userId fetched)

/-- String comparison used for the `order('created_at', ascending: true)`
sort. -/
def createdLe (a b : CharacterRow) : Bool :=
  !(decide (b.created_at < a.created_at))

/-- Stable insertion into a sorted-by-`created_at` list. -/
def insertByCreated (r : CharacterRow) : List CharacterRow → List CharacterRow
  | [] => [r]
  | x :: xs =>
      if createdLe r x then r :: x :: xs else x :: insertByCreated r xs

/-- Stable sort by `created_at` ascending. -/
def sortByCreated : List CharacterRow → List CharacterRow
  | [] => []
  | x :: xs => insertByCreated x (sortByCreated xs)

/-- GET /api/load-characters (lines 1010-1085): the user's rows in creation
order. -/
def loadCharacters (db : List CharacterRow) (userId : String) :
    List CharacterRow :=
  sortByCreated (db.filter (fun r => r.user_id == userId))

/-! ## Helper lemmas -/

theorem ne_empty_of_length_pos {s : String} (h : 0 < s.length) : s ≠ "" := by
  intro he
  subst he
  simp at h

theorem isPortraitRequest_iff (d : String) :
    isPortraitRequest d = true ↔
      ∃ k ∈ portraitKeywords, containsSub (toLowerStr d) k = true := by
  simp only [isPortraitRequest, portraitKeywords, Bool.or_eq_true,
    List.mem_cons, List.not_mem_nil, or_false]
  constructor
  · rintro ((((h | h) | h) | h) | h)
    · exact ⟨"portrait", Or.inl rfl, h⟩
    · exact ⟨"headshot", Or.inr (Or.inl rfl), h⟩
    · exact ⟨"close-up", Or.inr (Or.inr (Or.inl rfl)), h⟩
    · exact ⟨"closeup", Or.inr (Or.inr (Or.inr (Or.inl rfl))), h⟩
    · exact ⟨"face only", Or.inr (Or.inr (Or.inr (Or.inr rfl))), h⟩
  · rintro ⟨k, (rfl | rfl | rfl | rfl | rfl), h⟩ <;> tauto

/-! ## C2 — photo pipeline branch selection -/

/-- C2: the handler takes Branch A exactly when the lowercased description
contains one of the five portrait keywords **and** a truthy
`profileImageBase64` is supplied; in particular, without a reference image it
always takes Branch B. -/
theorem c2_branch_selection (d : String) (ref : JSValue) :
    (selectPhotoBranch d ref = .A ↔
      ((∃ k ∈ portraitKeywords, containsSub (toLowerStr d) k = true) ∧
        jsTruthy ref = true)) ∧
    (jsTruthy ref = false → selectPhotoBranch d ref = .B) := by
  constructor
  · by_cases hp : isPortraitRequest d = true <;>
      by_cases hr : jsTruthy ref = true <;>
        simp [selectPhotoBranch, hp, hr, ← isPortraitRequest_iff]
  · intro hr
    simp [selectPhotoBranch, hr]

/-- Witness for C2 at a concrete request: a close-up description with a
reference image routes to Branch A; the identical description without one
routes to Branch B. -/
theorem c2_branch_selection_witness :
    selectPhotoBranch "A close-up of her face" (.vStr "ZmFjZQ==") = .A ∧
    selectPhotoBranch "A close-up of her face" .vUndefined = .B :=
  ⟨(c2_branch_selection "A close-up of her face" (.vStr "ZmFjZQ==")).1.mpr
      ⟨⟨"close-up", by decide, by decide⟩, rfl⟩,
   (c2_branch_selection "A close-up of her face" .vUndefined).2 rfl⟩

/-! ## C8 — missing required fields yield HTTP 400 -/

/-- C8: a request missing (or supplying a falsy) required field gets HTTP 400
with an error message naming the field — `message`/`characterPrompt` on
/api/chat, `prompt` on /api/create-images, `description` on
/api/generate-photo — and 400 is not 500. -/
theorem c8_missing_field_guards :
    (∀ (m p : JSValue) (pr : Except String JSValue), jsTruthy m = false →
      chatHandler m p pr =
        { status := 400,
          body := [("error", .vStr "Message and characterPrompt are required")] }) ∧
    (∀ (m p : JSValue) (pr : Except String JSValue), jsTruthy p = false →
      chatHandler m p pr =
        { status := 400,
          body := [("error", .vStr "Message and characterPrompt are required")] }) ∧
    (∀ v : JSValue, jsTruthy v = false →
      createImagesGuard v =
        some { status := 400, body := [("error", .vStr "Prompt is required")] }) ∧
    (∀ v : JSValue, jsTruthy v = false →
      generatePhotoGuard v =
        some { status := 400, body := [("error", .vStr "Description is required")] }) ∧
    containsSub (toLowerStr "Message and characterPrompt are required") "message" = true ∧
    containsSub (toLowerStr "Message and characterPrompt are required") "characterprompt" = true ∧
    containsSub (toLowerStr "Prompt is required") "prompt" = true ∧
    containsSub (toLowerStr "Description is required") "description" = true ∧
    (400 : Nat) ≠ 500 := by
  refine ⟨?_, ?_, ?_, ?_, by decide, by decide, by decide, by decide, by decide⟩
  · intro m p pr hm
    simp [chatHandler, hm]
  · intro m p pr hp
    simp [chatHandler, hp]
  · intro v hv
    simp [createImagesGuard, hv]
  · intro v hv
    simp [generatePhotoGuard, hv]

/-- Witness for C8: concrete requests with the field absent (`undefined`). -/
theorem c8_missing_field_guards_witness :
    chatHandler .vUndefined (.vStr "You are Luna") (.ok (.vStr "hi")) =
      { status := 400,
        body := [("error", .vStr "Message and characterPrompt are required")] } ∧
    createImagesGuard .vUndefined =
      some { status := 400, body := [("error", .vStr "Prompt is required")] } ∧
    generatePhotoGuard .vUndefined =
      some { status := 400, body := [("error", .vStr "Description is required")] } :=
  ⟨c8_missing_field_guards.1 .vUndefined (.vStr "You are Luna") (.ok (.vStr "hi")) rfl,
   (c8_missing_field_guards.2.2.1) .vUndefined rfl,
   (c8_missing_field_guards.2.2.2.1) .vUndefined rfl⟩

/-! ## C7 — final URL validation, re-upload, and upload-failure fallback -/

/-- C7: the final step accepts only URLs starting with `http://` or
`https://` (anything else gets HTTP 500); an accepted URL is re-uploaded
under `generated/{uuid}.jpg` and the store's public URL is returned with
HTTP 200, falling back to the original ephemeral URL (still 200) when the
re-upload fails. -/
theorem c7_finalize_photo (url uuid : String) (cid : JSValue)
    (upload : String → String → Option String) :
    ((strStartsWith url "http://" || strStartsWith url "https://") = false →
      url ≠ "" →
      (finalizePhoto (.vStr url) uuid cid upload).status = 500) ∧
    ((strStartsWith url "http://" || strStartsWith url "https://") = true →
      (finalizePhoto (.vStr url) uuid cid upload).status = 200 ∧
      (finalizePhoto (.vStr url) uuid cid upload).field "imageURL" =
        some (.vStr (match upload url ("generated/" ++ uuid ++ ".jpg") with
                     | some publicUrl => publicUrl
                     | none => url))) := by
  constructor
  · intro hbad hne
    have ht : jsTruthy (.vStr url) = true := by
      simp [jsTruthy, hne]
    rcases Bool.or_eq_false_iff.mp hbad with ⟨h1, h2⟩
    simp [finalizePhoto, ht, h1, h2]
  · intro hgood
    have hne : url ≠ "" := by
      intro he
      subst he
      simp [strStartsWith] at hgood
    have ht : jsTruthy (.vStr url) = true := by
      simp [jsTruthy, hne]
    have hor : strStartsWith url "http://" = true ∨
        strStartsWith url "https://" = true := by simpa using hgood
    rcases hor with h | h
    · cases hupload : upload url ("generated/" ++ uuid ++ ".jpg") <;>
        simp [finalizePhoto, ht, h, hupload, HttpResponse.field]
    · cases hupload : upload url ("generated/" ++ uuid ++ ".jpg") <;>
        simp [finalizePhoto, ht, h, hupload, HttpResponse.field]

/-- Witness for C7: a valid provider URL with a succeeding re-upload returns
the store URL; the same URL with a failing re-upload returns the ephemeral
URL; an invalid scheme yields 500. -/
theorem c7_finalize_photo_witness :
    (finalizePhoto (.vStr "https://replicate.delivery/out.jpg") "u1" (.vStr "c1")
        (fun _ _ => some "https://store.example/images/u1.jpg")).field "imageURL" =
      some (.vStr "https://store.example/images/u1.jpg") ∧
    (finalizePhoto (.vStr "https://replicate.delivery/out.jpg") "u1" (.vStr "c1")
        (fun _ _ => none)).field "imageURL" =
      some (.vStr "https://replicate.delivery/out.jpg") ∧
    (finalizePhoto (.vStr "notaurl") "u1" (.vStr "c1")
        (fun _ _ => none)).status = 500 :=
  ⟨((c7_finalize_photo "https://replicate.delivery/out.jpg" "u1" (.vStr "c1")
      (fun _ _ => some "https://store.example/images/u1.jpg")).2 (by decide)).2,
   ((c7_finalize_photo "https://replicate.delivery/out.jpg" "u1" (.vStr "c1")
      (fun _ _ => none)).2 (by decide)).2,
   (c7_finalize_photo "notaurl" "u1" (.vStr "c1")
      (fun _ _ => none)).1 (by decide) (by decide)⟩

/-! ## C10 — oversized base64 reference silently skipped in Branch A -/

/-- C10: when the supplied base64 reference exceeds `5 * 1024 * 1024`
characters, Scenario A attaches neither `image` nor `strength` — the call is
plain text-to-image — and the request is not rejected: the step's outcome is
exactly the provider's outcome on the text-only input. -/
theorem c10_oversized_base64 (p n b64 : String)
    (h : 5 * 1024 * 1024 < b64.length) :
    scenarioAInput p n b64 =
      { prompt := p, negative_prompt := some n, aspect_ratio := "16:9",
        output_format := "jpg", image := none, strength := none } ∧
    (∀ (runFlux : FluxInput → Except String JSValue) (out : JSValue),
      runFlux { prompt := p, negative_prompt := some n, aspect_ratio := "16:9",
                output_format := "jpg", image := none, strength := none } = .ok out →
      scenarioAStep runFlux p n b64 = .ok (assignExtract .vUndefined out)) := by
  have hinput : scenarioAInput p n b64 =
      { prompt := p, negative_prompt := some n, aspect_ratio := "16:9",
        output_format := "jpg", image := none, strength := none } := by
    simp [scenarioAInput, h]
  refine ⟨hinput, ?_⟩
  intro runFlux out hok
  simp [scenarioAStep, hinput, hok]

/-- Witness for C10 at a concrete oversized (5 MiB + 1) base64 string. -/
theorem c10_oversized_base64_witness :
    5 * 1024 * 1024 < (String.mk (List.replicate 5242881 'a')).length ∧
    (scenarioAInput "a photo" "neg" (String.mk (List.replicate 5242881 'a'))).image =
      none ∧
    (scenarioAInput "a photo" "neg" (String.mk (List.replicate 5242881 'a'))).strength =
      none := by
  have h : 5 * 1024 * 1024 < (String.mk (List.replicate 5242881 'a')).length := by
    show 5 * 1024 * 1024 < (List.replicate 5242881 'a').length
    rw [List.length_replicate]
    norm_num
  have hinput := (c10_oversized_base64 "a photo" "neg"
    (String.mk (List.replicate 5242881 'a')) h).1
  exact ⟨h, by rw [hinput], by rw [hinput]⟩

/-! ## C1 — chat endpoint behavior on provider failure -/

theorem chatErrorResponse_ne_empty (m : JSValue) : chatErrorResponse m ≠ "" := by
  apply ne_empty_of_length_pos
  unfold chatErrorResponse
  rw [String.length_append, String.length_append]
  have h : 0 < ("I\x27m having trouble processing that right now, but I heard you say \"" : String).length := by
    decide
  omega

/-- C1 counterexample: a valid chat request (non-empty `message` and
`characterPrompt`) whose provider call fails is answered with HTTP **500**,
not the claimed 200 — the fallback text is synthesized into the body, but the
error *is* surfaced as an error status. -/
theorem c1_counterexample :
    (chatHandler (.vStr "Hello") (.vStr "You are Luna") (.error "boom")).status = 500 ∧
    (500 : Nat) ≠ 200 :=
  ⟨rfl, by decide⟩

/-- C1 (amended): for every chat request with non-empty `message` and
`characterPrompt`, the response body carries a non-empty `response` field in
both outcomes — HTTP 200 when the provider call succeeds (and normalizes to a
string), but HTTP **500** (with the synthesized in-character fallback still in
the `response` field) when the provider call fails. -/
theorem c1_chat_fallback (m p : String) (hm : m ≠ "") (hp : p ≠ "") :
    (∀ e, (chatHandler (.vStr m) (.vStr p) (.error e)).status = 500) ∧
    (∀ e, ∃ r, (chatHandler (.vStr m) (.vStr p) (.error e)).field "response" =
        some (.vStr r) ∧ r ≠ "") ∧
    (∀ (out : JSValue) (r0 : String), chatNormalize out = some r0 →
      (chatHandler (.vStr m) (.vStr p) (.ok out)).status = 200 ∧
      ∃ r, (chatHandler (.vStr m) (.vStr p) (.ok out)).field "response" =
          some (.vStr r) ∧ r ≠ "") := by
  have hg : (!(jsTruthy (.vStr m)) || !(jsTruthy (.vStr p))) = false := by
    simp [jsTruthy, hm, hp]
  refine ⟨?_, ?_, ?_⟩
  · intro e
    simp [chatHandler, hg]
  · intro e
    refine ⟨chatErrorResponse (.vStr m), ?_, chatErrorResponse_ne_empty _⟩
    simp [chatHandler, hg, HttpResponse.field]
  · intro out r0 hnorm
    by_cases hc : (r0 == "" || decide (r0.length < 3)) = true
    · constructor
      · simp [chatHandler, hg, hnorm]
      · refine ⟨"I\x27m here, how can I help you?", ?_, by decide⟩
        have hlen : ¬("I\x27m here, how can I help you?".length < 3) := by decide
        simp [chatHandler, hg, hnorm, hc, hlen, HttpResponse.field]
    · have hc' := hc
      rw [Bool.or_eq_true, not_or] at hc'
      have hr0 : r0 ≠ "" := by
        intro he
        exact hc'.1 (by simp [he])
      constructor
      · simp [chatHandler, hg, hnorm]
      · refine ⟨r0, ?_, hr0⟩
        simp only [chatHandler, hg, Bool.false_eq_true, if_false, hnorm]
        simp [hc, HttpResponse.field]

/-- Witness for C1 at a concrete failing request and a concrete successful
one. -/
theorem c1_chat_fallback_witness :
    (chatHandler (.vStr "Hi there") (.vStr "You are Luna") (.error "ECONNRESET")).status = 500 ∧
    (chatHandler (.vStr "Hi there") (.vStr "You are Luna") (.ok (.vStr "Hello, friend."))).status = 200 :=
  ⟨(c1_chat_fallback "Hi there" "You are Luna" (by decide) (by decide)).1 "ECONNRESET",
   ((c1_chat_fallback "Hi there" "You are Luna" (by decide) (by decide)).2.2
      (.vStr "Hello, friend.") "Hello, friend." rfl).1⟩

/-! ## C5 — chat response normalization -/

theorem chatExtract_obj_firstTruthy (fs : List (String × JSValue)) :
    chatExtract (.vObj fs) =
      match firstTruthyField fs with
      | some v => v
      | none => .vStr (jsonStringifyObj fs) := by
  by_cases h1 : jsTruthy (objGet fs "text") = true <;>
    by_cases h2 : jsTruthy (objGet fs "response") = true <;>
      by_cases h3 : jsTruthy (objGet fs "output") = true <;>
        by_cases h4 : jsTruthy (objGet fs "content") = true <;>
          simp [chatExtract, firstTruthyField, jsOr, List.find?, h1, h2, h3, h4]

/-- C5 counterexample: the normalization does **not** return the string case
unchanged (a final trim applies to every case), and the object case takes the
first *truthy* field, skipping a present-but-empty `text` field. -/
theorem c5_counterexample :
    chatNormalize (.vStr " hi ") = some "hi" ∧ (" hi " : String) ≠ "hi" ∧
    chatNormalize (.vObj [("text", .vStr ""), ("response", .vStr "ok")]) =
      some "ok" ∧ ("ok" : String) ≠ "" :=
  ⟨rfl, by decide, rfl, by decide⟩

/-- C5 (amended): normalization yields the string case **trimmed**; the array
case as the no-separator concatenation of stringified non-nullish elements,
trimmed (the line-351 trim, re-applied — idempotently — by the final line-362
trim); the object case takes the first **truthy** field among
`text`/`response`/`output`/`content` in that priority order — that value is
extracted unchanged, then the final trim applies when it is a string — and an
object with no truthy candidate field serializes wholesale via
`JSON.stringify`. -/
theorem c5_normalization_cases :
    (∀ s, chatNormalize (.vStr s) = some (trimStr s)) ∧
    (∀ xs, chatNormalize (.vArr xs) =
      some (trimStr (trimStr
        (joinSep "" ((xs.filter jsNotNullish).map chatElemStr))))) ∧
    (∀ fs v, firstTruthyField fs = some v → chatExtract (.vObj fs) = v) ∧
    (∀ fs s, firstTruthyField fs = some (.vStr s) →
      chatNormalize (.vObj fs) = some (trimStr s)) ∧
    (∀ fs, firstTruthyField fs = none →
      chatNormalize (.vObj fs) = some (trimStr (jsonStringifyObj fs))) := by
  refine ⟨fun s => rfl, fun xs => rfl, ?_, ?_, ?_⟩
  · intro fs v h
    rw [chatExtract_obj_firstTruthy, h]
  · intro fs s h
    unfold chatNormalize
    rw [chatExtract_obj_firstTruthy, h]
  · intro fs h
    unfold chatNormalize
    rw [chatExtract_obj_firstTruthy, h]

/-- Witness for C5: concrete object whose truthy `response` field (after a
falsy `text`) is extracted and trimmed; concrete fieldless object serialized
wholesale. -/
theorem c5_normalization_cases_witness :
    firstTruthyField [("text", .vNull), ("response", .vStr "  ok  ")] =
      some (.vStr "  ok  ") ∧
    chatNormalize (.vObj [("text", .vNull), ("response", .vStr "  ok  ")]) =
      some "ok" ∧
    firstTruthyField [("other", .vNum 7)] = none ∧
    chatNormalize (.vObj [("other", .vNum 7)]) =
      some "\x7b\"other\":7\x7d" := by
  have h1 : firstTruthyField [("text", .vNull), ("response", .vStr "  ok  ")] =
      some (.vStr "  ok  ") := rfl
  have h2 : firstTruthyField [("other", .vNum 7)] = none := rfl
  refine ⟨h1, ?_, h2, ?_⟩
  · rw [c5_normalization_cases.2.2.2.1 _ _ h1]
    rfl
  · rw [c5_normalization_cases.2.2.2.2 _ h2]
    rfl

/-! ## C3 — first succeeding alternate face-swap model wins -/

theorem jsTruthy_of_assignExtract {out : JSValue} {url : String}
    (h : assignExtract .vUndefined out = .vStr url) (hne : url ≠ "") :
    jsTruthy out = true := by
  cases out with
  | vStr s =>
      simp only [assignExtract, JSValue.vStr.injEq] at h
      subst h
      simp [jsTruthy, hne]
  | vArr xs => rfl
  | vObj fs => rfl
  | vNull => exact absurd h (by simp [assignExtract])
  | vUndefined => exact absurd h (by simp [assignExtract])
  | vBool b => exact absurd h (by simp [assignExtract])
  | vNum n => exact absurd h (by simp [assignExtract])

/-- C3: in Branch B with a reference image, when the primary face-swap model
fails and the first alternate (`lucataco/faceswap`) succeeds with an output
whose extracted URL is truthy, the `imageURL` carried into the final
persistence step is that alternate's output — the base scene URL plays no
role. -/
theorem c3_first_alternate_wins
    (runFS : String → FaceSwapInput → Except String JSValue)
    (runFlux : FluxInput → Except String JSValue)
    (scene : JSValue) (sp np b64 e : String) (out : JSValue) (url : String)
    (h1 : runFS primaryFaceSwapModel (mkFaceSwapInput scene b64) = .error e)
    (h2 : runFS "lucataco/faceswap" (mkFaceSwapInput scene b64) = .ok out)
    (h3 : assignExtract .vUndefined out = .vStr url)
    (h4 : url ≠ "") :
    faceSwapSection runFS runFlux scene sp np b64 = .vStr url := by
  have htr : jsTruthy out = true := jsTruthy_of_assignExtract h3 h4
  have hu : jsTruthy (.vStr url) = true := by simp [jsTruthy, h4]
  simp [faceSwapSection, faceSwapStage, fallbackModels, tryAltModels,
    h1, h2, htr, h3, hu]

/-- Witness for C3 at concrete oracles: the primary model is down, the first
alternate returns a URL, and that URL is the section's result. -/
theorem c3_first_alternate_wins_witness :
    faceSwapSection
      (fun m _ =>
        if m == "easel/advanced-face-swap" then .error "easel down"
        else if m == "lucataco/faceswap" then
          .ok (.vStr "https://alt.example/out.jpg")
        else .error "unreachable")
      (fun _ => .error "unused")
      (.vStr "https://scene.example/base.jpg") "scene prompt" "neg" "QUJD" =
      .vStr "https://alt.example/out.jpg" :=
  c3_first_alternate_wins _ _ _ _ _ _ "easel down"
    (.vStr "https://alt.example/out.jpg") "https://alt.example/out.jpg"
    rfl rfl rfl (by decide)

/-! ## C4 — all face-swap models fail: regeneration then scene fallback -/

theorem tryAltModels_all_fail
    {runFS : String → FaceSwapInput → Except String JSValue}
    {inp : FaceSwapInput}
    (h : ∀ m ∈ fallbackModels, ∃ msg, runFS m inp = .error msg) :
    tryAltModels runFS inp fallbackModels = none := by
  obtain ⟨m1, h1⟩ := h "lucataco/faceswap" (by decide)
  obtain ⟨m2, h2⟩ := h "fofr/face-swap" (by decide)
  obtain ⟨m3, h3⟩ := h
    "cdingram/face-swap:d1d6ea8c8be89d664a07a457526f7128109dee7030fdac424788d762c71ed111"
    (by decide)
  simp [tryAltModels, fallbackModels, h1, h2, h3]

/-- C4 counterexample: when every face-swap model fails, the low-strength
regeneration is conditioned on the **profile base64 data URL**, not on the
base scene image — an echoing flux oracle returns the conditioning image it
was given, and the result is the profile data URL, while the scene URL never
reaches the regeneration input. -/
theorem c4_counterexample :
    faceSwapSection (fun _ _ => .error "all models down")
      (fun inp => .ok (.vStr (inp.image.getD "no-image")))
      (.vStr "https://scene.example/base.jpg") "a beach scene" "neg" "QUJD" =
      .vStr "data:image/jpeg;base64,QUJD" ∧
    ("data:image/jpeg;base64,QUJD" : String) ≠ "https://scene.example/base.jpg" ∧
    (fallbackRegenInput "a beach scene" "neg" "QUJD").image =
      some "data:image/jpeg;base64,QUJD" :=
  ⟨rfl, by decide, rfl⟩

/-- C4 (amended): when the primary and every alternate face-swap model fail,
the pipeline falls back to a strength-0.1 image-conditioned regeneration
whose conditioning image is the supplied reference face (profile base64 data
URL) with the scene prompt — not the base scene image; and if that
regeneration also fails, the unmodified base scene URL is used as the result
(no error response at that stage). -/
theorem c4_all_fail_fallbacks
    (runFS : String → FaceSwapInput → Except String JSValue)
    (runFlux : FluxInput → Except String JSValue)
    (scene : JSValue) (sp np b64 : String)
    (hPrimary : ∃ e, runFS primaryFaceSwapModel (mkFaceSwapInput scene b64) = .error e)
    (hAlts : ∀ m ∈ fallbackModels, ∃ msg,
      runFS m (mkFaceSwapInput scene b64) = .error msg) :
    ((fallbackRegenInput sp np b64).image =
        some ("data:image/jpeg;base64," ++ b64) ∧
     (fallbackRegenInput sp np b64).strength = some (0.1 : ℚ) ∧
     (fallbackRegenInput sp np b64).prompt = sp) ∧
    (∀ fout, runFlux (fallbackRegenInput sp np b64) = .ok fout →
      faceSwapSection runFS runFlux scene sp np b64 =
        assignExtract .vUndefined fout) ∧
    (∀ e, runFlux (fallbackRegenInput sp np b64) = .error e →
      faceSwapSection runFS runFlux scene sp np b64 = scene) := by
  obtain ⟨e0, h0⟩ := hPrimary
  have halt := tryAltModels_all_fail hAlts
  refine ⟨⟨rfl, rfl, rfl⟩, ?_, ?_⟩
  · intro fout hok
    simp [faceSwapSection, faceSwapStage, h0, halt, regenFallback, hok]
  · intro e he
    simp [faceSwapSection, faceSwapStage, h0, halt, regenFallback, he]

/-- Witness for C4: with every model call failing, the section returns the
unmodified scene URL. -/
theorem c4_all_fail_fallbacks_witness :
    faceSwapSection (fun _ _ => .error "down") (fun _ => .error "flux down")
      (.vStr "https://scene.example/base.jpg") "scene prompt" "neg" "QUJD" =
      .vStr "https://scene.example/base.jpg" :=
  (c4_all_fail_fallbacks _ _ _ _ _ _ ⟨"down", rfl⟩
    (fun _ _ => ⟨"down", rfl⟩)).2.2 "flux down" rfl

/-! ## C6 — wholesale replace semantics of save-characters -/

theorem filter_not_filter (db : List CharacterRow) (u : String) :
    (db.filter (fun r => !(r.user_id == u))).filter (fun r => r.user_id == u) =
      [] := by
  rw [List.filter_filter]
  refine List.filter_eq_nil_iff.mpr (fun a _ => ?_)
  simp [Bool.and_not_self]

theorem filter_not_self (db : List CharacterRow) (u : String) :
    (db.filter (fun r => !(r.user_id == u))).filter (fun r => !(r.user_id == u)) =
      db.filter (fun r => !(r.user_id == u)) := by
  rw [List.filter_filter]
  exact List.filter_congr (fun a _ => Bool.and_self _)

/-- C6: saving `[A, B]` for user `u` and then `[C]` for `u` leaves exactly one
row for `u` on load — the one built from `C` — because each save deletes all
rows scoped to the user id before bulk-inserting the supplied set. -/
theorem c6_replace_semantics (db : List CharacterRow) (u : String)
    (A B C : InChar) :
    ∃ r, loadCharacters (saveCharacters (saveCharacters db u [A, B]) u [C]) u =
        [r] ∧
      r.character_id = C.id ∧ r.name = C.name ∧ r.user_id = u := by
  have h1 : saveCharacters db u [A, B] =
      db.filter (fun r => !(r.user_id == u)) ++
        [toRow u (db.filter (fun r => r.user_id == u)) A,
         toRow u (db.filter (fun r => r.user_id == u)) B] := rfl
  have hmem : ∀ x ∈ [toRow u (db.filter (fun r => r.user_id == u)) A,
      toRow u (db.filter (fun r => r.user_id == u)) B], (x.user_id == u) = true := by
    intro x hx
    rcases List.mem_cons.mp hx with rfl | hx
    · simp [toRow]
    · rcases List.mem_cons.mp hx with rfl | hx
      · simp [toRow]
      · exact absurd hx (List.not_mem_nil _)
  have hfetch : (saveCharacters db u [A, B]).filter (fun r => r.user_id == u) =
      [toRow u (db.filter (fun r => r.user_id == u)) A,
       toRow u (db.filter (fun r => r.user_id == u)) B] := by
    rw [h1, List.filter_append, filter_not_filter, List.nil_append]
    exact List.filter_eq_self.mpr hmem
  have hdel : (saveCharacters db u [A, B]).filter (fun r => !(r.user_id == u)) =
      db.filter (fun r => !(r.user_id == u)) := by
    rw [h1, List.filter_append, filter_not_self]
    have : [toRow u (db.filter (fun r => r.user_id == u)) A,
        toRow u (db.filter (fun r => r.user_id == u)) B].filter
          (fun r => !(r.user_id == u)) = [] := by
      refine List.filter_eq_nil_iff.mpr (fun a ha => ?_)
      simp [hmem a ha]
    rw [this, List.append_nil]
  have h2 : saveCharacters (saveCharacters db u [A, B]) u [C] =
      (saveCharacters db u [A, B]).filter (fun r => !(r.user_id == u)) ++
        [toRow u ((saveCharacters db u [A, B]).filter
          (fun r => r.user_id == u)) C] := rfl
  rw [hdel] at h2
  refine ⟨toRow u ((saveCharacters db u [A, B]).filter
    (fun r => r.user_id == u)) C, ?_, rfl, rfl, rfl⟩
  unfold loadCharacters
  rw [h2, List.filter_append, filter_not_filter, List.nil_append]
  have hC : (toRow u ((saveCharacters db u [A, B]).filter
      (fun r => r.user_id == u)) C).user_id = u := rfl
  have : [toRow u ((saveCharacters db u [A, B]).filter
      (fun r => r.user_id == u)) C].filter (fun r => r.user_id == u) =
      [toRow u ((saveCharacters db u [A, B]).filter
        (fun r => r.user_id == u)) C] := by
    refine List.filter_eq_self.mpr (fun a ha => ?_)
    rcases List.mem_cons.mp ha with rfl | ha
    · simp [hC]
    · exact absurd ha (List.not_mem_nil _)
  rw [this]
  rfl

/-! ## C9 — image-URL preservation across the wholesale replace -/

/-- A previously persisted row holding object-store image URLs. -/
def sampleStoredRow : CharacterRow :=
  { user_id := "u1", character_id := "c1", name := "Aria",
    profile_image_url := some "https://store.example/p.jpg",
    full_body_image_url := some "https://store.example/f.jpg",
    created_at := "t0", is_user_created := true,
    character_traits := .vObj [] }

/-- An incoming character whose image URLs are missing / a local path and
whose `isUserCreated` flag is `false`. -/
def sampleIncomingChar : InChar :=
  { id := "c1", name := "Luna", profileImageURL := none,
    fullBodyImageURL := some "file://tmp/x.jpg", createdAt := "t1",
    isUserCreated := false, characterTraits := .vObj [] }

/-- C9 counterexample: the previously stored URLs are indeed preserved, but
not *all* other supplied fields are taken from the request — the supplied
`isUserCreated = false` is overwritten with `true` by
`char.isUserCreated || true` in the inserted row. -/
theorem c9_counterexample :
    saveCharacters [sampleStoredRow] "u1" [sampleIncomingChar] =
      [toRow "u1" [sampleStoredRow] sampleIncomingChar] ∧
    (toRow "u1" [sampleStoredRow] sampleIncomingChar).profile_image_url =
      some "https://store.example/p.jpg" ∧
    (toRow "u1" [sampleStoredRow] sampleIncomingChar).full_body_image_url =
      some "https://store.example/f.jpg" ∧
    sampleIncomingChar.isUserCreated = false ∧
    (toRow "u1" [sampleStoredRow] sampleIncomingChar).is_user_created = true ∧
    (true : Bool) ≠ false :=
  ⟨rfl, rfl, rfl, rfl, rfl, by decide⟩

/-- C9 (amended): for an incoming character whose profile (resp. full-body)
URL is absent, empty, or a `file://` path, the inserted row carries the
non-empty profile (resp. full-body) URL previously persisted for the same
character id; `name`, `created_at` and object-typed `characterTraits` are
taken from the request, but `is_user_created` is always forced to `true`
(`char.isUserCreated || true`) regardless of the supplied value. -/
theorem c9_image_preservation (db : List CharacterRow) (u : String)
    (c : InChar) (pu fu : String)
    (hprof : c.profileImageURL = none ∨ c.profileImageURL = some "" ∨
      ∃ s, c.profileImageURL = some s ∧ strStartsWith s "file://" = true)
    (hfull : c.fullBodyImageURL = none ∨ c.fullBodyImageURL = some "" ∨
      ∃ s, c.fullBodyImageURL = some s ∧ strStartsWith s "file://" = true)
    (hex : existingLookup (db.filter (fun r => r.user_id == u)) c.id =
      some (some pu, some fu))
    (hpu : pu ≠ "") (hfu : fu ≠ "")
    (htr : isTypeofObject c.characterTraits = true) :
    (toRow u (db.filter (fun r => r.user_id == u)) c).profile_image_url =
      some pu ∧
    (toRow u (db.filter (fun r => r.user_id == u)) c).full_body_image_url =
      some fu ∧
    (toRow u (db.filter (fun r => r.user_id == u)) c).user_id = u ∧
    (toRow u (db.filter (fun r => r.user_id == u)) c).character_id = c.id ∧
    (toRow u (db.filter (fun r => r.user_id == u)) c).name = c.name ∧
    (toRow u (db.filter (fun r => r.user_id == u)) c).created_at = c.createdAt ∧
    (toRow u (db.filter (fun r => r.user_id == u)) c).character_traits =
      c.characterTraits ∧
    (toRow u (db.filter (fun r => r.user_id == u)) c).is_user_created = true ∧
    (∀ cs, c ∈ cs →
      toRow u (db.filter (fun r => r.user_id == u)) c ∈ saveCharacters db u cs) := by
  have hneed : ∀ (url : Option String),
      (url = none ∨ url = some "" ∨
        ∃ s, url = some s ∧ strStartsWith s "file://" = true) →
      urlNeedsExisting (normOptURL url) = true := by
    rintro url (rfl | rfl | ⟨s, rfl, hs⟩)
    · rfl
    · rfl
    · by_cases he : s = ""
      · subst he
        exact absurd hs (by decide)
      · simp [normOptURL, he, urlNeedsExisting, hs]
  have hp := hneed c.profileImageURL hprof
  have hf := hneed c.fullBodyImageURL hfull
  refine ⟨?_, ?_, rfl, rfl, rfl, rfl, ?_, ?_, ?_⟩
  · simp [toRow, hex, preserveURL, hp, hpu]
  · simp [toRow, hex, preserveURL, hf, hfu]
  · simp [toRow, htr]
  · simp [toRow]
  · intro cs hcs
    unfold saveCharacters
    exact List.mem_append_right _ (List.mem_map_of_mem _ hcs)

/-- Witness for C9 at the concrete stored row / incoming character pair. -/
theorem c9_image_preservation_witness :
    (toRow "u1" ([sampleStoredRow].filter (fun r => r.user_id == "u1"))
        sampleIncomingChar).profile_image_url =
      some "https://store.example/p.jpg" ∧
    (toRow "u1" ([sampleStoredRow].filter (fun r => r.user_id == "u1"))
        sampleIncomingChar).is_user_created = true :=
  ⟨(c9_image_preservation [sampleStoredRow] "u1" sampleIncomingChar
      "https://store.example/p.jpg" "https://store.example/f.jpg"
      (Or.inl rfl)
      (Or.inr (Or.inr ⟨"file://tmp/x.jpg", rfl, by decide⟩))
      rfl (by decide) (by decide) rfl).1,
   (c9_image_preservation [sampleStoredRow] "u1" sampleIncomingChar
      "https://store.example/p.jpg" "https://store.example/f.jpg"
      (Or.inl rfl)
      (Or.inr (Or.inr ⟨"file://tmp/x.jpg", rfl, by decide⟩))
      rfl (by decide) (by decide) rfl).2.2.2.2.2.2.2.1⟩

end CharaqtiqueProxy
